import Mathlib

/-!
Shallow embedding of the `form_exer` repository: the page-composition and
rendering layer (`web/shared`, `web/pages`) and the route handlers of
`main.go`.  The HTML builder from the `element` library is modelled as a
string accumulator: creating a tag appends its opening markup, `T` appends
text, and `R`/`T` close paired tags; void tags (`input`, `img`, `hr`) emit
only an opening tag.  Go evaluates the arguments of `R(...)` left to right
before `R` closes the tag, so each `Render` below is written as the
sequence of appends the Go code performs, line by line.
-/

/-- Serialization of one HTML attribute as the element builder emits it:
a leading space, then name="value". -/
def attrString (kv : String × String) : String :=
  " " ++ kv.1 ++ "=\"" ++ kv.2 ++ "\""

/-- Serialization of an attribute list. -/
def attrsString (attrs : List (String × String)) : String :=
  String.join (attrs.map attrString)

/-- Opening markup of a tag with its attributes. -/
def openTag (t : String) (attrs : List (String × String)) : String :=
  "<" ++ t ++ attrsString attrs ++ ">"

/-- Closing markup of a paired tag. -/
def closeTag (t : String) : String :=
  "</" ++ t ++ ">"

/-- The `shared.Page` mixin struct (web/shared): a title shared by all pages. -/
structure Page where
  Title : String

/-- The `shared.Banner` component (src/unnamed/part_002): carries the page title. -/
structure Banner where
  Title : String

/-- The `shared.Footer` component: an empty (stateless) struct. -/
structure Footer where

/-- `Page.Banner` returns the banner component for this page. -/
def Page.Banner (p : Page) : Banner :=
  { Title := p.Title }

/-- `Page.Footer` returns the footer component for this page. -/
def Page.Footer (_p : Page) : Footer :=
  Footer.mk

/-- `Banner.Render` (src/unnamed/part_002 lines 11-16): appends a styled
header containing an h1 with the banner's title. -/
def Banner.Render (bn : Banner) (builder : String) : String :=
  let builder := builder ++ openTag "header" [("style", "background-color:#2c3e50; color:white; padding:20px")]
  let builder := builder ++ openTag "h1" []
  let builder := builder ++ bn.Title
  let builder := builder ++ closeTag "h1"
  let builder := builder ++ closeTag "header"
  builder

/-- `Footer.Render` (web/shared): appends a lightgray div with a copyright
paragraph. -/
def Footer.Render (_f : Footer) (builder : String) : String :=
  let builder := builder ++ openTag "div" [("style", "background-color:lightgray")]
  let builder := builder ++ openTag "p" [("style", "color:gray")]
  let builder := builder ++ "Copyright &copy; 2025"
  let builder := builder ++ closeTag "p"
  let builder := builder ++ closeTag "div"
  builder

/-- The `ContactForm` component (web/pages/contact.go): an empty struct. -/
structure ContactForm where

/-- `ContactForm.Render` (web/pages/contact.go lines 76-110): appends a form
posting to /contact with name, email, message fields and a submit button. -/
def ContactForm.Render (_cf : ContactForm) (builder : String) : String :=
  let builder := builder ++ openTag "form" [("action", "/contact"), ("method", "POST")]
  let builder := builder ++ openTag "input" [("type", "text"), ("name", "name"), ("placeholder", "Name")]
  let builder := builder ++ openTag "input" [("type", "email"), ("name", "email"), ("placeholder", "Email")]
  let builder := builder ++ openTag "textarea" [("name", "message"), ("placeholder", "Message")]
  let builder := builder ++ closeTag "textarea"
  let builder := builder ++ openTag "button" [("type", "submit")]
  let builder := builder ++ "Send"
  let builder := builder ++ closeTag "button"
  let builder := builder ++ closeTag "form"
  builder

/-- The `CatAdoptionHero` component (web/pages/home_page_comps.go): an empty
struct. -/
structure CatAdoptionHero where

/-- `CatAdoptionHero.Render` (web/pages/home_page_comps.go lines 72-138):
appends the hero section with three static cat cards. -/
def CatAdoptionHero.Render (_c : CatAdoptionHero) (builder : String) : String :=
  let builder := builder ++ openTag "div" [("style", "max-width:1200px; margin:0 auto; padding:40px 20px")]
  let builder := builder ++ openTag "h2" [("style", "text-align:center; color:#2c3e50; font-size:2.5em; margin-bottom:20px")]
  let builder := builder ++ "Find Your Purr-fect Companion"
  let builder := builder ++ closeTag "h2"
  let builder := builder ++ openTag "p" [("style", "text-align:center; color:#555; font-size:1.2em; margin-bottom:40px")]
  let builder := builder ++ "Give a loving cat a forever home. Browse our adoptable cats and kittens waiting to meet you!"
  let builder := builder ++ closeTag "p"
  let builder := builder ++ openTag "div" [("style", "display:grid; grid-template-columns:repeat(auto-fit, minmax(300px, 1fr)); gap:30px; margin-top:40px")]
  let builder := builder ++ openTag "div" [("style", "background:white; border-radius:10px; box-shadow:0 4px 6px rgba(0,0,0,0.1); padding:20px")]
  let builder := builder ++ openTag "img" [("src", "https://placekitten.com/400/300"), ("alt", "Orange tabby cat"), ("style", "width:100%; border-radius:8px; margin-bottom:15px")]
  let builder := builder ++ openTag "h3" [("style", "color:#2c3e50; margin:10px 0")]
  let builder := builder ++ "Whiskers"
  let builder := builder ++ closeTag "h3"
  let builder := builder ++ openTag "p" [("style", "color:#666; line-height:1.6")]
  let builder := builder ++ "A friendly orange tabby who loves to play and cuddle. Great with kids and other pets. Age: 2 years."
  let builder := builder ++ closeTag "p"
  let builder := builder ++ openTag "button" [("style", "background-color:#e67e22; color:white; border:none; padding:10px 20px; border-radius:5px; cursor:pointer; font-size:1em; margin-top:10px")]
  let builder := builder ++ "Meet Whiskers"
  let builder := builder ++ closeTag "button"
  let builder := builder ++ closeTag "div"
  let builder := builder ++ openTag "div" [("style", "background:white; border-radius:10px; box-shadow:0 4px 6px rgba(0,0,0,0.1); padding:20px")]
  let builder := builder ++ openTag "img" [("src", "https://placekitten.com/401/300"), ("alt", "Gray and white cat"), ("style", "width:100%; border-radius:8px; margin-bottom:15px")]
  let builder := builder ++ openTag "h3" [("style", "color:#2c3e50; margin:10px 0")]
  let builder := builder ++ "Luna"
  let builder := builder ++ closeTag "h3"
  let builder := builder ++ openTag "p" [("style", "color:#666; line-height:1.6")]
  let builder := builder ++ "A calm and gentle gray beauty who enjoys quiet afternoons. Perfect for apartment living. Age: 4 years."
  let builder := builder ++ closeTag "p"
  let builder := builder ++ openTag "button" [("style", "background-color:#e67e22; color:white; border:none; padding:10px 20px; border-radius:5px; cursor:pointer; font-size:1em; margin-top:10px")]
  let builder := builder ++ "Meet Luna"
  let builder := builder ++ closeTag "button"
  let builder := builder ++ closeTag "div"
  let builder := builder ++ openTag "div" [("style", "background:white; border-radius:10px; box-shadow:0 4px 6px rgba(0,0,0,0.1); padding:20px")]
  let builder := builder ++ openTag "img" [("src", "https://placekitten.com/402/300"), ("alt", "Black cat"), ("style", "width:100%; border-radius:8px; margin-bottom:15px")]
  let builder := builder ++ openTag "h3" [("style", "color:#2c3e50; margin:10px 0")]
  let builder := builder ++ "Shadow"
  let builder := builder ++ closeTag "h3"
  let builder := builder ++ openTag "p" [("style", "color:#666; line-height:1.6")]
  let builder := builder ++ "A playful black kitten full of energy and curiosity. Loves interactive toys and exploring. Age: 8 months."
  let builder := builder ++ closeTag "p"
  let builder := builder ++ openTag "button" [("style", "background-color:#e67e22; color:white; border:none; padding:10px 20px; border-radius:5px; cursor:pointer; font-size:1em; margin-top:10px")]
  let builder := builder ++ "Meet Shadow"
  let builder := builder ++ closeTag "button"
  let builder := builder ++ closeTag "div"
  let builder := builder ++ closeTag "div"
  let builder := builder ++ closeTag "div"
  builder

/-- The `Home` page struct (web/pages/home_page_comps.go): embeds the shared
Page mixin and adds a heading. -/
structure Home where
  Page : Page
  Heading : String

/-- `Home.Render` (web/pages/home_page_comps.go lines 28-60): a tan body
containing banner, hero, footer, then the h1 heading. -/
def Home.Render (h : Home) : String :=
  let b := ""
  let b := b ++ openTag "body" [("style", "background-color:tan")]
  let b := (h.Page.Banner).Render b
  let b := CatAdoptionHero.Render CatAdoptionHero.mk b
  let b := (h.Page.Footer).Render b
  let b := b ++ openTag "h1" [("style", "color:maroon;background-color:#dfc673")]
  let b := b ++ h.Heading
  let b := b ++ closeTag "h1"
  let b := b ++ closeTag "body"
  b

/-- The `ContactPage` struct (web/pages/contact.go): embeds the shared Page
mixin and adds a heading. -/
structure ContactPage where
  Page : Page
  Heading : String

/-- `ContactPage.Render` (web/pages/contact.go lines 37-65): a tan body
containing banner, contact form, footer, then the h1 heading. -/
def ContactPage.Render (c : ContactPage) : String :=
  let b := ""
  let b := b ++ openTag "body" [("style", "background-color:tan")]
  let b := (c.Page.Banner).Render b
  let b := ContactForm.Render ContactForm.mk b
  let b := (c.Page.Footer).Render b
  let b := b ++ openTag "h1" [("style", "color:maroon;background-color:#dfc673")]
  let b := b ++ c.Heading
  let b := b ++ closeTag "h1"
  let b := b ++ closeTag "body"
  b

/-- The `HomePage` package-level singleton (web/pages/home.go lines 14-23). -/
def HomePage : Home :=
  { Page := { Title := "My Website" }, Heading := "Home Page" }

/-- The `Contact` package-level singleton (web/pages/contact.go lines 24-31). -/
def Contact : ContactPage :=
  { Page := { Title := "Contact Us" }, Heading := "Get in Touch" }

/-! ### Route handlers of `main.go` -/

/-- The request data a form-handling route sees: path parameters bound by the
router and the decoded form fields of the body. -/
structure FormReq where
  pathParams : List (String × String)
  formValues : List (String × String)

/-- First value bound to a key, or the empty string when the key is absent
(the behaviour of the framework's FormValue/PathParam accessors). -/
def lookupDefault : List (String × String) → String → String
  | [], _ => ""
  | (a, v) :: t, k => if a = k then v else lookupDefault t k

/-- `ctx.Request().FormValue(key)`. -/
def FormReq.FormValue (r : FormReq) (k : String) : String :=
  lookupDefault r.formValues k

/-- `ctx.Request().PathParam(key)`. -/
def FormReq.PathParam (r : FormReq) (k : String) : String :=
  lookupDefault r.pathParams k

/-- The POST /post-form-data/:form_id handler (main.go lines 180-194): echoes
the path parameter and two form fields in a fixed plain-text format. -/
def postFormDataHandler (req : FormReq) : String :=
  let dept := req.FormValue "dept"
  let formId := req.PathParam "form_id"
  let nm := req.FormValue "name"
  "Posted - form_id: " ++ formId ++ ", dept: " ++ dept ++ ", name: " ++ nm

/-- The POST /contact handler (main.go lines 198-223): echoes the three form
fields inside a styled HTML body built with the element builder. -/
def contactPostHandler (req : FormReq) : String :=
  let nm := req.FormValue "name"
  let email := req.FormValue "email"
  let message := req.FormValue "message"
  let outStr := "Posted - name: " ++ nm ++ ", email: " ++ email ++ ", message: " ++ message
  let b := ""
  let b := b ++ openTag "body" [("style", "background-color:darkgreen")]
  let b := b ++ openTag "h1" [("style", "color:maroon;background-color:#dfc673")]
  let b := b ++ "Welcome"
  let b := b ++ closeTag "h1"
  let b := b ++ openTag "hr" []
  let b := b ++ openTag "p" []
  let b := b ++ outStr
  let b := b ++ closeTag "p"
  let b := b ++ closeTag "body"
  b

/-! ### The POST /upload handler (main.go lines 234-280)

The handler calls three fallible operations in sequence: `GetFormFile`,
`io.ReadAll`, `os.WriteFile`.  Each is modelled by its outcome in the
request environment; the handler's observable behaviour is the returned
error (nil = `none`) and the trace of `os.WriteFile` invocations it makes,
each an output filename paired with the bytes passed. -/

/-- A Go error value; the handler never inspects or rebuilds errors, so an
opaque string models one faithfully. -/
abbrev GoError := String

/-- A byte sequence (file content). -/
abbrev ByteSeq := List Nat

/-- Outcomes of the three fallible steps of the upload handler. -/
structure UploadReq where
  getFormFileErr : Option GoError
  readAllRes : Except GoError ByteSeq
  writeFileErr : Option GoError

/-- The fixed output filename in the os.WriteFile call. -/
def uploadedFileName : String := "uploaded_file.txt"

/-- Observable result of one run of the upload handler. -/
structure UploadResult where
  err : Option GoError
  writes : List (String × ByteSeq)

/-- The POST /upload handler: early-return on a GetFormFile error, then on an
io.ReadAll error, then a single os.WriteFile of the bytes read to the fixed
filename, returning the write's error or nil. -/
def uploadHandler (req : UploadReq) : UploadResult :=
  match req.getFormFileErr with
  | some e => { err := some e, writes := [] }
  | none =>
    match req.readAllRes with
    | Except.error e => { err := some e, writes := [] }
    | Except.ok data =>
      match req.writeFileErr with
      | some e => { err := some e, writes := [(uploadedFileName, data)] }
      | none => { err := none, writes := [(uploadedFileName, data)] }

/-- A file system: maps a filename to its content when the file exists. -/
def FS : Type := String → Option ByteSeq

/-- Effect of one completed `os.WriteFile` call on the file system. -/
def applyWrite (fs : FS) (w : String × ByteSeq) : FS :=
  fun n => if n = w.1 then some w.2 else fs n

/-- Effect of a trace of writes on the file system. -/
def applyWrites (fs : FS) (ws : List (String × ByteSeq)) : FS :=
  ws.foldl applyWrite fs

/-! ### Package-level state threading

The page `Render` methods use value receivers and assign to no package-level
variable; the state-passing embedding makes this explicit by threading the
package variables (`pages.HomePage`, `pages.Contact`) through each call. -/

/-- The package-level variables of `web/pages`. -/
structure PkgVars where
  homePage : Home
  contact : ContactPage

/-- State-passing form of `Home.Render`: the method body contains no
assignment to a package-level variable, so the state passes through while
the string is computed from the receiver alone via a fresh builder. -/
def Home.RenderSt (h : Home) (g : PkgVars) : String × PkgVars :=
  (h.Render, g)

/-- State-passing form of `ContactPage.Render`; as with `Home.RenderSt`, the
source assigns to no package-level variable. -/
def ContactPage.RenderSt (c : ContactPage) (g : PkgVars) : String × PkgVars :=
  (c.Render, g)

/-! ### Substring occurrence, executable -/

/-- Whether the first list is an initial segment of the second. -/
def leadMatch : List Char → List Char → Bool
  | [], _ => true
  | _ :: _, [] => false
  | a :: as, b :: bs => a == b && leadMatch as bs

/-- Whether `sub` occurs contiguously inside the second list. -/
def hasSubList (sub : List Char) : List Char → Bool
  | [] => leadMatch sub []
  | c :: t => leadMatch sub (c :: t) || hasSubList sub t

/-- Whether `sub` occurs contiguously inside the string `s`. -/
def strHasSub (s sub : String) : Bool :=
  hasSubList sub.data s.data

/-! ### Markup fragments appended by each component -/

/-- The fragment `Banner.Render` appends for a given title. -/
def bannerFrag (title : String) : String :=
  Banner.Render { Title := title } ""

/-- The fragment `Footer.Render` appends. -/
def footerFrag : String := Footer.Render Footer.mk ""

/-- The fragment `ContactForm.Render` appends. -/
def contactFormFrag : String := ContactForm.Render ContactForm.mk ""

/-- The fragment `CatAdoptionHero.Render` appends. -/
def heroFrag : String := CatAdoptionHero.Render CatAdoptionHero.mk ""

/-- The heading fragment a page render appends after its components. -/
def headingFrag (heading : String) : String :=
  openTag "h1" [("style", "color:maroon;background-color:#dfc673")] ++ heading ++ closeTag "h1"

theorem banner_append (bn : Banner) (b : String) :
    bn.Render b = b ++ bannerFrag bn.Title := by
  simp only [Banner.Render, bannerFrag, String.empty_append, String.append_assoc]

theorem footer_append (f : Footer) (b : String) :
    f.Render b = b ++ footerFrag := by
  simp only [Footer.Render, footerFrag, String.empty_append, String.append_assoc]

theorem cform_append (cf : ContactForm) (b : String) :
    cf.Render b = b ++ contactFormFrag := by
  simp only [ContactForm.Render, contactFormFrag, String.empty_append, String.append_assoc]

theorem hero_append (c : CatAdoptionHero) (b : String) :
    c.Render b = b ++ heroFrag := by
  simp only [CatAdoptionHero.Render, heroFrag, String.empty_append, String.append_assoc]

/-! ### Claims -/

set_option maxRecDepth 10000 in
/-- C1: rendering the HomePage singleton (Title "My Website", Heading
"Home Page") via Home.Render yields HTML containing a header element whose
content includes the text "My Website", and an h1 element whose content is
"Home Page". -/
theorem homePage_render_has_banner_title_and_heading :
    strHasSub HomePage.Render "<header style=\"background-color:#2c3e50; color:white; padding:20px\"><h1>My Website</h1></header>" = true ∧
    strHasSub HomePage.Render "<h1 style=\"color:maroon;background-color:#dfc673\">Home Page</h1>" = true := by
  constructor <;> decide

set_option maxRecDepth 10000 in
/-- C2: rendering the Contact singleton via ContactPage.Render yields HTML
containing a form element with action="/contact" and method="POST" whose
content includes an input named "name", an input named "email" and a
textarea named "message". -/
theorem contact_render_has_form :
    strHasSub Contact.Render "<form action=\"/contact\" method=\"POST\"><input type=\"text\" name=\"name\" placeholder=\"Name\"><input type=\"email\" name=\"email\" placeholder=\"Email\"><textarea name=\"message\" placeholder=\"Message\"></textarea><button type=\"submit\">Send</button></form>" = true := by
  decide

/-- C3: for every Home and ContactPage value, Render produces the banner
fragment first, then the body content (hero or contact form), then the
footer fragment, and the h1 heading fragment last, after the footer. -/
theorem render_order_banner_body_footer_heading (h : Home) (c : ContactPage) :
    h.Render = openTag "body" [("style", "background-color:tan")] ++
      (bannerFrag h.Page.Title ++ (heroFrag ++ (footerFrag ++
        (headingFrag h.Heading ++ closeTag "body")))) ∧
    c.Render = openTag "body" [("style", "background-color:tan")] ++
      (bannerFrag c.Page.Title ++ (contactFormFrag ++ (footerFrag ++
        (headingFrag c.Heading ++ closeTag "body")))) := by
  constructor
  · simp only [Home.Render, Page.Banner, Page.Footer, banner_append, hero_append,
      footer_append, headingFrag, String.empty_append, String.append_assoc]
  · simp only [ContactPage.Render, Page.Banner, Page.Footer, banner_append, cform_append,
      footer_append, headingFrag, String.empty_append, String.append_assoc]

/-- Closed instance of the ordering theorem at the two page singletons. -/
theorem render_order_banner_body_footer_heading_witness :
    HomePage.Render = openTag "body" [("style", "background-color:tan")] ++
      (bannerFrag "My Website" ++ (heroFrag ++ (footerFrag ++
        (headingFrag "Home Page" ++ closeTag "body")))) :=
  (render_order_banner_body_footer_heading HomePage Contact).1

/-- The request of claim C4: path parameter form_id=42, fields dept=eng and
name=Sue. -/
def reqFormData42 : FormReq :=
  { pathParams := [("form_id", "42")], formValues := [("dept", "eng"), ("name", "Sue")] }

/-- C4: the POST /post-form-data/:form_id handler, given form_id=42,
dept=eng, name=Sue, writes exactly the expected plain-text echo line. -/
theorem post_form_data_handler_echo :
    postFormDataHandler reqFormData42 = "Posted - form_id: 42, dept: eng, name: Sue" := by
  decide

/-- The request of claim C5: fields name=Jane, email=j@x.com, message=Hi. -/
def reqContactJane : FormReq :=
  { pathParams := [], formValues := [("name", "Jane"), ("email", "j@x.com"), ("message", "Hi")] }

/-- C5: the POST /contact handler, given name=Jane, email=j@x.com,
message=Hi, writes an HTML body containing each literal value as part of
the echoed string. -/
theorem contact_post_handler_echo :
    strHasSub (contactPostHandler reqContactJane) "Jane" = true ∧
    strHasSub (contactPostHandler reqContactJane) "j@x.com" = true ∧
    strHasSub (contactPostHandler reqContactJane) "Hi" = true ∧
    strHasSub (contactPostHandler reqContactJane) "Posted - name: Jane, email: j@x.com, message: Hi" = true := by
  refine ⟨?_, ?_, ?_, ?_⟩ <;> decide

/-- C6: whenever GetFormFile succeeds and io.ReadAll returns bytes `data`,
the upload handler performs exactly one write, of exactly those bytes, to
the fixed filename "uploaded_file.txt". -/
theorem upload_writes_exact_bytes (req : UploadReq) (data : ByteSeq)
    (hg : req.getFormFileErr = none) (hr : req.readAllRes = Except.ok data) :
    (uploadHandler req).writes = [(uploadedFileName, data)] ∧
    uploadedFileName = "uploaded_file.txt" := by
  refine ⟨?_, rfl⟩
  cases hw : req.writeFileErr <;> simp [uploadHandler, hg, hr, hw]

/-- An all-success upload run on a two-byte file. -/
def reqUploadOk : UploadReq :=
  { getFormFileErr := none, readAllRes := Except.ok [104, 105], writeFileErr := none }

/-- Closed instance of the upload write theorem on a two-byte file. -/
theorem upload_writes_exact_bytes_witness :
    (uploadHandler reqUploadOk).writes = [(uploadedFileName, [104, 105])] ∧
    uploadedFileName = "uploaded_file.txt" :=
  upload_writes_exact_bytes reqUploadOk [104, 105] rfl rfl

/-- C7: rendering is deterministic and free of side effects on package-level
state: a second Render call returns the same string, and the package
variables are unchanged by a call. -/
theorem render_deterministic_and_pure (p : Home) (c : ContactPage) (g : PkgVars) :
    (p.RenderSt g).1 = (p.RenderSt (p.RenderSt g).2).1 ∧
    (c.RenderSt g).1 = (c.RenderSt (c.RenderSt g).2).1 ∧
    (p.RenderSt g).2 = g ∧ (c.RenderSt g).2 = g :=
  ⟨rfl, rfl, rfl, rfl⟩

/-- Closed instance of the purity theorem at the page singletons. -/
theorem render_deterministic_and_pure_witness :
    (HomePage.RenderSt { homePage := HomePage, contact := Contact }).2 =
      { homePage := HomePage, contact := Contact } :=
  (render_deterministic_and_pure HomePage Contact
    { homePage := HomePage, contact := Contact }).2.2.1

/-- C8: every component render, on any builder state, returns without
failure and only appends: the prior builder content is an initial segment
of the resulting content. -/
theorem component_render_appends_only (bn : Banner) (f : Footer) (cf : ContactForm)
    (ch : CatAdoptionHero) (b : String) :
    (∃ t, bn.Render b = b ++ t) ∧ (∃ t, f.Render b = b ++ t) ∧
    (∃ t, cf.Render b = b ++ t) ∧ (∃ t, ch.Render b = b ++ t) :=
  ⟨⟨bannerFrag bn.Title, banner_append bn b⟩, ⟨footerFrag, footer_append f b⟩,
   ⟨contactFormFrag, cform_append cf b⟩, ⟨heroFrag, hero_append ch b⟩⟩

/-- Closed instance of the append-only theorem on a concrete builder state. -/
theorem component_render_appends_only_witness :
    ∃ t, Banner.Render { Title := "T" } "seed" = "seed" ++ t :=
  (component_render_appends_only { Title := "T" } Footer.mk ContactForm.mk
    CatAdoptionHero.mk "seed").1

/-- C9: the upload handler propagates the first error unchanged: a
GetFormFile error is returned as-is, an io.ReadAll error is returned as-is,
after a successful read the result is exactly the os.WriteFile outcome, and
the handler returns nil exactly when all three steps succeed. -/
theorem upload_error_propagation (req : UploadReq) :
    (∀ e, req.getFormFileErr = some e → (uploadHandler req).err = some e) ∧
    (∀ e, req.getFormFileErr = none → req.readAllRes = Except.error e →
      (uploadHandler req).err = some e) ∧
    (∀ data, req.getFormFileErr = none → req.readAllRes = Except.ok data →
      (uploadHandler req).err = req.writeFileErr) ∧
    ((uploadHandler req).err = none ↔ req.getFormFileErr = none ∧
      (∃ d, req.readAllRes = Except.ok d) ∧ req.writeFileErr = none) := by
  obtain ⟨g, r, w⟩ := req
  cases g <;> cases r <;> cases w <;> simp [uploadHandler]

/-- An upload run whose GetFormFile step fails. -/
def reqUploadBadForm : UploadReq :=
  { getFormFileErr := some "bad form", readAllRes := Except.ok [], writeFileErr := none }

/-- An all-success upload run on a one-byte file. -/
def reqUploadOneByte : UploadReq :=
  { getFormFileErr := none, readAllRes := Except.ok [7], writeFileErr := none }

/-- Closed instances of error propagation: a GetFormFile error is returned
unchanged, and an all-success run returns nil. -/
theorem upload_error_propagation_witness :
    (uploadHandler reqUploadBadForm).err = some "bad form" ∧
    (uploadHandler reqUploadOneByte).err = none :=
  ⟨(upload_error_propagation reqUploadBadForm).1 "bad form" rfl,
   ((upload_error_propagation reqUploadOneByte).2.2.2).mpr ⟨rfl, ⟨[7], rfl⟩, rfl⟩⟩

/-- C10: when GetFormFile or io.ReadAll fails, the upload handler performs
no write, so any file system is left unchanged. -/
theorem upload_failure_before_write_preserves_fs (req : UploadReq) (fs : FS)
    (h : req.getFormFileErr ≠ none ∨ ∃ e, req.readAllRes = Except.error e) :
    (uploadHandler req).writes = [] ∧
    applyWrites fs (uploadHandler req).writes = fs := by
  obtain ⟨g, r, w⟩ := req
  rcases h with hg | ⟨e, hr⟩
  · cases g with
    | none => exact absurd rfl hg
    | some e => cases r <;> cases w <;> simp [uploadHandler, applyWrites]
  · cases hr
    cases g with
    | none => cases w <;> simp [uploadHandler, applyWrites]
    | some e2 => cases w <;> simp [uploadHandler, applyWrites]

/-- The empty file system used by the file-system preservation instance. -/
def fsEmpty : FS := fun _ => none

/-- An upload run whose GetFormFile step fails with a missing file. -/
def reqUploadMissing : UploadReq :=
  { getFormFileErr := some "missing file", readAllRes := Except.ok [], writeFileErr := none }

/-- Closed instance of file-system preservation on a GetFormFile failure. -/
theorem upload_failure_before_write_preserves_fs_witness :
    (uploadHandler reqUploadMissing).writes = [] ∧
    applyWrites fsEmpty (uploadHandler reqUploadMissing).writes = fsEmpty :=
  upload_failure_before_write_preserves_fs reqUploadMissing fsEmpty (Or.inl (by simp [reqUploadMissing]))
